import Mathlib

/-!
Verification of the order-service core (services/order-service/index.js):
the fail-fast validation protocol, the in-memory order store, and the
creation/retrieval handlers. The remote existence checks (user service,
inventory service) are modelled as oracle functions returning success or
a failure message, matching the axios call that either resolves or throws
an error whose message is surfaced verbatim.
-/

namespace OrderService

/-- A line item of an order request: `{ productId, quantity }`. -/
structure Item where
  productId : String
  quantity : Int
deriving DecidableEq, Repr

/-- An order record as built by the creation handler:
`{ id: orderId, userId, items, status: "pending" }`. -/
structure Order where
  id : String
  userId : String
  items : List Item
  status : String
deriving DecidableEq, Repr

/-- A remote existence check: given an identifier it succeeds, or fails with
an error message (the message of the error thrown by axios.get). -/
def Check : Type := String → Except String Unit

/-- One external call made by the creation handler, in the order recorded. -/
inductive Call where
  | userCall (userId : String)
  | productCall (productId : String)
deriving DecidableEq, Repr

/-- The in-memory store `const orders = {}`: a JavaScript object mapping an
order id to the order record, modelled as an association list in insertion
order (assignment to an existing key replaces its value in place). -/
abbrev Store : Type := List (String × Order)

/-- Exact-key lookup `orders[id]`. -/
def storeGet (s : Store) (k : String) : Option Order :=
  (s.find? (fun p => p.1 == k)).map Prod.snd

/-- Key assignment `orders[orderId] = order`: replaces the value of an
existing key in place, otherwise appends the new binding. -/
def storeInsert (s : Store) (k : String) (v : Order) : Store :=
  if s.any (fun p => p.1 == k) then
    s.map (fun p => if p.1 == k then (k, v) else p)
  else
    s ++ [(k, v)]

/-- Enumeration of all stored records, `Object.values(orders)`. -/
def storeList (s : Store) : List Order :=
  s.map Prod.snd

/-- The parsed creation request body `{ userId, items }`. `items = none`
models a body whose items field is missing or not iterable, in which case
the for-of loop raises a TypeError that the handler catches. -/
structure ReqBody where
  userId : String
  items : Option (List Item)

/-- An HTTP response of the service, identified by status code and payload:
201 created, 400 bad request, 200 with one order, 200 with the order list,
404 not found. -/
inductive Resp where
  | created (o : Order)
  | badRequest (msg : String)
  | okOrder (o : Order)
  | okList (os : List Order)
  | notFound (msg : String)
deriving DecidableEq, Repr

/-- The message of the TypeError raised by `for (const item of items)` when
the items field is missing or not iterable. -/
def iterErrMsg : String := "items is not iterable"

/-- The inventory loop of the creation handler: check each item
in caller-supplied order, stopping at the first failure. Returns the
product-check calls actually made and the first failure message, if any. -/
def checkItems (pc : Check) : List Item → List Call × Option String
  | [] => ([], none)
  | item :: rest =>
    match pc item.productId with
    | .error msg => ([Call.productCall item.productId], some msg)
    | .ok _ =>
      let r := checkItems pc rest
      (Call.productCall item.productId :: r.1, r.2)

/-- The POST /api/v1/orders handler: verify the user exists, check the
inventory for each item, then allocate `orderId = Date.now().toString()`
(the decimal string of the millisecond timestamp `now`), build the order
record with status pending, insert it, and return it with 201. Any raised
error is caught and returned as 400 with the error message. Returns the
response, the resulting store, and the external calls made in order. -/
def createOrderHandler (uc pc : Check) (now : Nat) (s : Store) (body : ReqBody) :
    Resp × Store × List Call :=
  match uc body.userId with
  | .error msg => (.badRequest msg, s, [Call.userCall body.userId])
  | .ok _ =>
    match body.items with
    | none => (.badRequest iterErrMsg, s, [Call.userCall body.userId])
    | some items =>
      let r := checkItems pc items
      match r.2 with
      | some msg => (.badRequest msg, s, Call.userCall body.userId :: r.1)
      | none =>
        let orderId := Nat.repr now
        let order : Order :=
          { id := orderId, userId := body.userId, items := items, status := "pending" }
        (.created order, storeInsert s orderId order,
          Call.userCall body.userId :: r.1)

/-- The GET /api/v1/orders/:id handler: return the record if present,
otherwise 404 with the fixed error message. -/
def getOrderHandler (s : Store) (id : String) : Resp :=
  match storeGet s id with
  | some o => .okOrder o
  | none => .notFound "Order not found"

/-- The GET /api/v1/orders handler: return every stored order. -/
def listOrdersHandler (s : Store) : Resp :=
  .okList (storeList s)

/-- One creation request together with the collaborator behaviour it
observes and the timestamp at which Date.now() is sampled. -/
structure CreateReq where
  uc : Check
  pc : Check
  now : Nat
  body : ReqBody

/-- A request-level event of the core: a creation, a get by id, or a list. -/
inductive Event where
  | createE (r : CreateReq)
  | getE (id : String)
  | listE

/-- Execute one event against the store: the resulting store, the response,
and the external calls made. -/
def exec (s : Store) (e : Event) : Store × Resp × List Call :=
  match e with
  | .createE r =>
    let out := createOrderHandler r.uc r.pc r.now s r.body
    (out.2.1, out.1, out.2.2)
  | .getE i => (s, getOrderHandler s i, [])
  | .listE => (s, listOrdersHandler s, [])

/-- Run a sequence of events from a store, returning the final store. -/
def run (s : Store) : List Event → Store
  | [] => s
  | e :: es => run (exec s e).1 es

/-- The ids returned by the successful creations of an event sequence
executed from the given store, in order. -/
def createdIds (s : Store) : List Event → List String
  | [] => []
  | e :: es =>
    let out := exec s e
    (match out.2.1 with
     | .created o => [o.id]
     | _ => []) ++ createdIds out.1 es

/-- An existence check that always succeeds. -/
def okCheck : Check := fun _ => .ok ()

/-- First concrete creation request: user u1, no items, timestamp 1000. -/
def req1 : CreateReq := ⟨okCheck, okCheck, 1000, ⟨"u1", some []⟩⟩

/-- Second concrete creation request: user u2, no items, same timestamp. -/
def req2 : CreateReq := ⟨okCheck, okCheck, 1000, ⟨"u2", some []⟩⟩

/-! ### Helper lemmas -/

theorem checkItems_all_ok (pc : Check) (items : List Item)
    (hp : ∀ it ∈ items, pc it.productId = .ok ()) :
    checkItems pc items = (items.map (fun it => Call.productCall it.productId), none) := by
  induction items with
  | nil => rfl
  | cons item rest ih =>
    have h1 : pc item.productId = .ok () := hp item (List.mem_cons_self _ _)
    have h2 := ih (fun it hit => hp it (List.mem_cons_of_mem _ hit))
    simp only [checkItems, h1, h2, List.map_cons]

theorem checkItems_fail (pc : Check) (pre : List Item) (bad : Item) (post : List Item)
    (msg : String)
    (hpre : ∀ it ∈ pre, pc it.productId = .ok ())
    (hbad : pc bad.productId = .error msg) :
    checkItems pc (pre ++ bad :: post) =
      (pre.map (fun it => Call.productCall it.productId) ++ [Call.productCall bad.productId],
       some msg) := by
  induction pre with
  | nil => simp only [List.nil_append, checkItems, hbad, List.map_nil]
  | cons item rest ih =>
    have h1 : pc item.productId = .ok () := hpre item (List.mem_cons_self _ _)
    have h2 := ih (fun it hit => hpre it (List.mem_cons_of_mem _ hit))
    simp only [List.cons_append, checkItems, h1, List.append_eq, h2, List.map_cons]

theorem createOrderHandler_success (uc pc : Check) (now : Nat) (s : Store)
    (userId : String) (items : List Item)
    (hu : uc userId = .ok ())
    (hp : ∀ it ∈ items, pc it.productId = .ok ()) :
    createOrderHandler uc pc now s ⟨userId, some items⟩ =
      (.created ⟨Nat.repr now, userId, items, "pending"⟩,
       storeInsert s (Nat.repr now) ⟨Nat.repr now, userId, items, "pending"⟩,
       Call.userCall userId :: items.map (fun it => Call.productCall it.productId)) := by
  simp only [createOrderHandler, hu, checkItems_all_ok pc items hp]

theorem find?_replace_of_any (k : String) (v : Order) :
    ∀ s : Store, s.any (fun p => p.1 == k) = true →
      (s.map (fun p => if p.1 == k then (k, v) else p)).find? (fun p => p.1 == k) =
        some (k, v)
  | [], h => by simp at h
  | p :: rest, h => by
    by_cases hk : (p.1 == k) = true
    · simp only [List.map_cons, if_pos hk]
      exact List.find?_cons_of_pos _ (by simp)
    · simp only [List.any_cons, hk, Bool.false_or] at h
      simp only [List.map_cons, if_neg hk]
      rw [List.find?_cons_of_neg (p := fun (q : String × Order) => q.1 == k) _ hk]
      exact find?_replace_of_any k v rest h

theorem storeGet_insert_self (s : Store) (k : String) (v : Order) :
    storeGet (storeInsert s k v) k = some v := by
  unfold storeInsert
  by_cases h : s.any (fun p => p.1 == k) = true
  · rw [if_pos h]
    unfold storeGet
    rw [find?_replace_of_any k v s h]
    rfl
  · rw [if_neg h]
    unfold storeGet
    rw [List.find?_append]
    have hnone : s.find? (fun p => p.1 == k) = none := by
      rw [List.find?_eq_none]
      intro x hx hpx
      exact h (List.any_eq_true.2 ⟨x, hx, hpx⟩)
    rw [hnone]
    simp [List.find?]

theorem find?_replace_of_ne (k i : String) (v : Order) (hki : k ≠ i) :
    ∀ s : Store,
      (s.map (fun p => if p.1 == k then (k, v) else p)).find? (fun p => p.1 == i) =
        s.find? (fun p => p.1 == i)
  | [] => rfl
  | p :: rest => by
    by_cases hk : (p.1 == k) = true
    · have hpk : p.1 = k := by simpa using hk
      have hpi : ¬((p.1 == i) = true) := by
        simp only [beq_iff_eq]
        rw [hpk]
        exact hki
      have hkv : ¬((((k, v) : String × Order).1 == i) = true) := by simpa using hki
      simp only [List.map_cons, if_pos hk]
      rw [List.find?_cons_of_neg (p := fun (q : String × Order) => q.1 == i) _ hkv,
        List.find?_cons_of_neg (p := fun (q : String × Order) => q.1 == i) _ hpi]
      exact find?_replace_of_ne k i v hki rest
    · simp only [List.map_cons, if_neg hk]
      by_cases hpi : (p.1 == i) = true
      · rw [List.find?_cons_of_pos (p := fun (q : String × Order) => q.1 == i) _ hpi,
          List.find?_cons_of_pos (p := fun (q : String × Order) => q.1 == i) _ hpi]
      · rw [List.find?_cons_of_neg (p := fun (q : String × Order) => q.1 == i) _ hpi,
          List.find?_cons_of_neg (p := fun (q : String × Order) => q.1 == i) _ hpi]
        exact find?_replace_of_ne k i v hki rest

theorem storeGet_insert_ne (s : Store) (k i : String) (v : Order) (hki : k ≠ i) :
    storeGet (storeInsert s k v) i = storeGet s i := by
  unfold storeInsert
  by_cases h : s.any (fun p => p.1 == k) = true
  · rw [if_pos h]
    unfold storeGet
    rw [find?_replace_of_ne k i v hki s]
  · rw [if_neg h]
    unfold storeGet
    rw [List.find?_append]
    have hkif : (k == i) = false := by
      simpa using hki
    have h2 : ([(k, v)] : Store).find? (fun p => p.1 == i) = none := by
      simp [List.find?, hkif]
    rw [h2, Option.or_none]

theorem createOrderHandler_cases (uc pc : Check) (now : Nat) (s : Store) (body : ReqBody) :
    (createOrderHandler uc pc now s body).2.1 = s ∨
    ∃ o : Order, (createOrderHandler uc pc now s body).1 = .created o ∧
      o.id = Nat.repr now ∧
      (createOrderHandler uc pc now s body).2.1 = storeInsert s (Nat.repr now) o := by
  cases h : uc body.userId with
  | error msg => left; simp only [createOrderHandler, h]
  | ok u =>
    cases hits : body.items with
    | none => left; simp only [createOrderHandler, h, hits]
    | some items =>
      cases hck : (checkItems pc items).2 with
      | none =>
        right
        refine ⟨⟨Nat.repr now, body.userId, items, "pending"⟩, ?_, rfl, ?_⟩ <;>
          simp only [createOrderHandler, h, hits, hck]
      | some msg => left; simp only [createOrderHandler, h, hits, hck]

theorem storeGet_run_none (i : String) :
    ∀ (es : List Event) (s : Store), storeGet s i = none → i ∉ createdIds s es →
      storeGet (run s es) i = none
  | [], _, h0, _ => h0
  | e :: es, s, h0, h => by
    have h' := h
    simp only [createdIds, List.mem_append, not_or] at h'
    cases e with
    | getE j => exact storeGet_run_none i es s h0 h'.2
    | listE => exact storeGet_run_none i es s h0 h'.2
    | createE r =>
      rcases createOrderHandler_cases r.uc r.pc r.now s r.body with hc | ⟨o, ho, hid, hst⟩
      · have hstep : (exec s (.createE r)).1 = s := hc
        have htail : i ∉ createdIds (exec s (.createE r)).1 es := h'.2
        rw [run, hstep]
        rw [hstep] at htail
        exact storeGet_run_none i es s h0 htail
      · have hstep : (exec s (.createE r)).1 = storeInsert s (Nat.repr r.now) o := hst
        have hresp : (exec s (.createE r)).2.1 = .created o := ho
        have hhead := h'.1
        rw [hresp] at hhead
        have hne : Nat.repr r.now ≠ i := by
          intro hx
          apply hhead
          rw [← hid] at hx
          simp [hx]
        have htail : i ∉ createdIds (exec s (.createE r)).1 es := h'.2
        rw [run, hstep]
        rw [hstep] at htail
        have h0ins : storeGet (storeInsert s (Nat.repr r.now) o) i = none := by
          rw [storeGet_insert_ne s (Nat.repr r.now) i o hne]
          exact h0
        exact storeGet_run_none i es _ h0ins htail

theorem storeGet_run_some (oid : String) (o : Order) :
    ∀ (es : List Event) (s : Store), storeGet s oid = some o →
      (∀ r : CreateReq, Event.createE r ∈ es → Nat.repr r.now ≠ oid) →
      storeGet (run s es) oid = some o
  | [], _, h0, _ => h0
  | e :: es, s, h0, h => by
    have htail : ∀ r : CreateReq, Event.createE r ∈ es → Nat.repr r.now ≠ oid :=
      fun r hr => h r (List.mem_cons_of_mem _ hr)
    cases e with
    | getE j => exact storeGet_run_some oid o es s h0 htail
    | listE => exact storeGet_run_some oid o es s h0 htail
    | createE r =>
      rcases createOrderHandler_cases r.uc r.pc r.now s r.body with hc | ⟨o2, ho2, hid2, hst2⟩
      · have hstep : (exec s (.createE r)).1 = s := hc
        rw [run, hstep]
        exact storeGet_run_some oid o es s h0 htail
      · have hstep : (exec s (.createE r)).1 = storeInsert s (Nat.repr r.now) o2 := hst2
        rw [run, hstep]
        have hne : Nat.repr r.now ≠ oid := h r (List.mem_cons_self _ _)
        have h0ins : storeGet (storeInsert s (Nat.repr r.now) o2) oid = some o := by
          rw [storeGet_insert_ne s (Nat.repr r.now) oid o2 hne]
          exact h0
        exact storeGet_run_some oid o es _ h0ins htail

/-! ### Claim theorems -/

/-- C1 (amended): for every creation request whose user check and all product
checks succeed, and whose generated timestamp string is not already a key of
the store, the creation returns an order with status pending, the
caller-supplied userId, the input items in the same order, and an id that is
fresh (absent from the prior store); the returned record is the one inserted
into the store, retrievable under its id. -/
theorem create_returns_pending_order (uc pc : Check) (now : Nat) (s : Store)
    (userId : String) (items : List Item)
    (hu : uc userId = .ok ())
    (hp : ∀ it ∈ items, pc it.productId = .ok ())
    (hfresh : storeGet s (Nat.repr now) = none) :
    ∃ o : Order,
      (createOrderHandler uc pc now s ⟨userId, some items⟩).1 = .created o ∧
      o.status = "pending" ∧ o.userId = userId ∧ o.items = items ∧
      storeGet s o.id = none ∧
      (createOrderHandler uc pc now s ⟨userId, some items⟩).2.1 = storeInsert s o.id o ∧
      storeGet (createOrderHandler uc pc now s ⟨userId, some items⟩).2.1 o.id = some o := by
  refine ⟨⟨Nat.repr now, userId, items, "pending"⟩, ?_, rfl, rfl, rfl, hfresh, ?_, ?_⟩
  · rw [createOrderHandler_success uc pc now s userId items hu hp]
  · rw [createOrderHandler_success uc pc now s userId items hu hp]
  · rw [createOrderHandler_success uc pc now s userId items hu hp]
    exact storeGet_insert_self s (Nat.repr now) _

/-- C1 witness: concrete successful creation of one item at timestamp 7. -/
theorem create_returns_pending_order_witness :
    ∃ o : Order,
      (createOrderHandler okCheck okCheck 7 [] ⟨"u1", some [⟨"p1", 2⟩]⟩).1 = .created o ∧
      o.status = "pending" ∧ o.userId = "u1" ∧ o.items = [⟨"p1", 2⟩] ∧
      storeGet [] o.id = none ∧
      (createOrderHandler okCheck okCheck 7 [] ⟨"u1", some [⟨"p1", 2⟩]⟩).2.1 =
        storeInsert [] o.id o ∧
      storeGet (createOrderHandler okCheck okCheck 7 [] ⟨"u1", some [⟨"p1", 2⟩]⟩).2.1 o.id =
        some o :=
  create_returns_pending_order okCheck okCheck 7 [] "u1" [⟨"p1", 2⟩]
    rfl (fun _ _ => rfl) rfl

/-- C1 counterexample: the claim as stated fails, because the id is the
millisecond timestamp string, which is not freshly allocated when a previous
creation used the same timestamp: the second creation at timestamp 1000
succeeds and returns id 1000, yet that id already identifies a different
order stored by the first creation. -/
theorem create_returns_pending_order_cex :
    (createOrderHandler okCheck okCheck 1000 (run [] [.createE req1])
        ⟨"u2", some []⟩).1 = .created ⟨"1000", "u2", [], "pending"⟩ ∧
    storeGet (run [] [.createE req1]) "1000" =
      some ⟨"1000", "u1", [], "pending"⟩ := by
  exact ⟨rfl, rfl⟩

/-- C2: the code violates the uniqueness claim. Two creation requests whose
Date.now() samples fall in the same millisecond are both accepted and both
receive the same id, and the second insertion silently overwrites the first
record with the data of a different request. -/
theorem duplicate_ids_bug :
    (exec ([] : Store) (.createE req1)).2.1 = .created ⟨"1000", "u1", [], "pending"⟩ ∧
    (exec (run [] [.createE req1]) (.createE req2)).2.1 =
      .created ⟨"1000", "u2", [], "pending"⟩ ∧
    storeGet (run [] [.createE req1, .createE req2]) "1000" =
      some ⟨"1000", "u2", [], "pending"⟩ ∧
    createdIds [] [.createE req1, .createE req2] = ["1000", "1000"] := by
  exact ⟨rfl, rfl, rfl, rfl⟩

/-- C3: for every creation request in which all existence checks succeed,
the external calls made are exactly the user check followed by one product
check per item in caller-supplied order, hence exactly 1 + len(items)
calls. -/
theorem call_sequence (uc pc : Check) (now : Nat) (s : Store) (userId : String)
    (items : List Item)
    (hu : uc userId = .ok ())
    (hp : ∀ it ∈ items, pc it.productId = .ok ()) :
    (createOrderHandler uc pc now s ⟨userId, some items⟩).2.2 =
      Call.userCall userId :: items.map (fun it => Call.productCall it.productId) ∧
    (createOrderHandler uc pc now s ⟨userId, some items⟩).2.2.length = 1 + items.length := by
  rw [createOrderHandler_success uc pc now s userId items hu hp]
  exact ⟨rfl, by simp [Nat.add_comm]⟩

/-- C3 witness: two items produce the call sequence user, item 1, item 2. -/
theorem call_sequence_witness :
    (createOrderHandler okCheck okCheck 7 [] ⟨"u1", some [⟨"p1", 2⟩, ⟨"p2", 1⟩]⟩).2.2 =
      Call.userCall "u1" ::
        ([⟨"p1", 2⟩, ⟨"p2", 1⟩] : List Item).map (fun it => Call.productCall it.productId) ∧
    (createOrderHandler okCheck okCheck 7 [] ⟨"u1", some [⟨"p1", 2⟩, ⟨"p2", 1⟩]⟩).2.2.length =
      1 + ([⟨"p1", 2⟩, ⟨"p2", 1⟩] : List Item).length :=
  call_sequence okCheck okCheck 7 [] "u1" [⟨"p1", 2⟩, ⟨"p2", 1⟩] rfl (fun _ _ => rfl)

/-- C4: when the user existence check fails, the creation makes no product
check (the only external call is the user check), stores nothing (the store
is returned unchanged), and answers 400 with exactly the failure message of
the user check. -/
theorem user_check_fail (uc pc : Check) (now : Nat) (s : Store) (userId : String)
    (items : Option (List Item)) (msg : String)
    (hu : uc userId = .error msg) :
    createOrderHandler uc pc now s ⟨userId, items⟩ =
      (.badRequest msg, s, [Call.userCall userId]) := by
  simp only [createOrderHandler, hu]

/-- C4 witness: a failing user check with the message of the repository
test suite. -/
theorem user_check_fail_witness :
    createOrderHandler (fun _ => .error "User not found") okCheck 7 []
        ⟨"ghost", some [⟨"p1", 2⟩]⟩ =
      (.badRequest "User not found", [], [Call.userCall "ghost"]) :=
  user_check_fail (fun _ => .error "User not found") okCheck 7 [] "ghost"
    (some [⟨"p1", 2⟩]) "User not found" rfl

/-- C5: when the product check of item k (position len(pre) + 1) is the first
failure, the calls made are the user check, the product checks of the items
before item k, and the product check of item k; the items after it are never
checked, the store is returned unchanged, and get and list observe the same
store as before the failed creation. -/
theorem fail_fast_item (uc pc : Check) (now : Nat) (s : Store) (userId : String)
    (pre : List Item) (bad : Item) (post : List Item) (msg : String)
    (hu : uc userId = .ok ())
    (hpre : ∀ it ∈ pre, pc it.productId = .ok ())
    (hbad : pc bad.productId = .error msg) :
    createOrderHandler uc pc now s ⟨userId, some (pre ++ bad :: post)⟩ =
      (.badRequest msg, s,
        Call.userCall userId ::
          (pre.map (fun it => Call.productCall it.productId) ++
            [Call.productCall bad.productId])) ∧
    (∀ i, getOrderHandler
        (createOrderHandler uc pc now s ⟨userId, some (pre ++ bad :: post)⟩).2.1 i =
      getOrderHandler s i) ∧
    listOrdersHandler
        (createOrderHandler uc pc now s ⟨userId, some (pre ++ bad :: post)⟩).2.1 =
      listOrdersHandler s := by
  have hck := checkItems_fail pc pre bad post msg hpre hbad
  have hmain :
      createOrderHandler uc pc now s ⟨userId, some (pre ++ bad :: post)⟩ =
        (.badRequest msg, s,
          Call.userCall userId ::
            (pre.map (fun it => Call.productCall it.productId) ++
              [Call.productCall bad.productId])) := by
    simp only [createOrderHandler, hu, hck]
  exact ⟨hmain, fun i => by rw [hmain], by rw [hmain]⟩

/-- C5 witness: with items p1, bad, p3, the failing check of the second item
stops the iteration, the third item is never checked, and the store stays
empty. -/
theorem fail_fast_item_witness :
    createOrderHandler okCheck
        (fun p => if p == "bad" then .error "Product not found" else .ok ()) 7 []
        ⟨"u1", some [⟨"p1", 1⟩, ⟨"bad", 1⟩, ⟨"p3", 1⟩]⟩ =
      (.badRequest "Product not found", [],
        Call.userCall "u1" ::
          (([⟨"p1", 1⟩] : List Item).map (fun it => Call.productCall it.productId) ++
            [Call.productCall "bad"])) ∧
    (∀ i, getOrderHandler
        (createOrderHandler okCheck
          (fun p => if p == "bad" then .error "Product not found" else .ok ()) 7 []
          ⟨"u1", some [⟨"p1", 1⟩, ⟨"bad", 1⟩, ⟨"p3", 1⟩]⟩).2.1 i =
      getOrderHandler [] i) ∧
    listOrdersHandler
        (createOrderHandler okCheck
          (fun p => if p == "bad" then .error "Product not found" else .ok ()) 7 []
          ⟨"u1", some [⟨"p1", 1⟩, ⟨"bad", 1⟩, ⟨"p3", 1⟩]⟩).2.1 =
      listOrdersHandler [] :=
  fail_fast_item okCheck
    (fun p => if p == "bad" then .error "Product not found" else .ok ()) 7 [] "u1"
    [⟨"p1", 1⟩] ⟨"bad", 1⟩ [⟨"p3", 1⟩] "Product not found"
    rfl (by intro it hit; simp at hit; rw [hit]; rfl) rfl

/-- C6: immediately after a successful creation, getting the returned order
id yields a record structurally identical to the one the creation
returned. -/
theorem get_after_create (uc pc : Check) (now : Nat) (s : Store) (userId : String)
    (items : List Item)
    (hu : uc userId = .ok ())
    (hp : ∀ it ∈ items, pc it.productId = .ok ()) :
    ∃ o : Order,
      (createOrderHandler uc pc now s ⟨userId, some items⟩).1 = .created o ∧
      getOrderHandler (createOrderHandler uc pc now s ⟨userId, some items⟩).2.1 o.id =
        .okOrder o := by
  refine ⟨⟨Nat.repr now, userId, items, "pending"⟩, ?_, ?_⟩
  · rw [createOrderHandler_success uc pc now s userId items hu hp]
  · rw [createOrderHandler_success uc pc now s userId items hu hp]
    show getOrderHandler (storeInsert s (Nat.repr now) _) (Nat.repr now) = _
    unfold getOrderHandler
    rw [storeGet_insert_self]

/-- C6 witness: concrete creation at timestamp 7 followed by a get of the
returned id. -/
theorem get_after_create_witness :
    ∃ o : Order,
      (createOrderHandler okCheck okCheck 7 [] ⟨"u1", some [⟨"p1", 2⟩]⟩).1 = .created o ∧
      getOrderHandler (createOrderHandler okCheck okCheck 7 [] ⟨"u1", some [⟨"p1", 2⟩]⟩).2.1
          o.id = .okOrder o :=
  get_after_create okCheck okCheck 7 [] "u1" [⟨"p1", 2⟩] rfl (fun _ _ => rfl)

/-- C7: for any event sequence run from the empty store, getting an
identifier never returned by a successful creation yields 404 with the fixed
body Order not found, and leaves the store unchanged. -/
theorem get_never_created (es : List Event) (i : String)
    (h : i ∉ createdIds [] es) :
    storeGet (run ([] : Store) es) i = none ∧
    exec (run ([] : Store) es) (.getE i) =
      (run ([] : Store) es, .notFound "Order not found", []) := by
  have hnone := storeGet_run_none i es [] rfl h
  refine ⟨hnone, ?_⟩
  show (_, getOrderHandler _ i, _) = _
  unfold getOrderHandler
  rw [hnone]

/-- C7 witness: after one successful creation with id 1000, getting id 999
yields the 404 response and does not change the store. -/
theorem get_never_created_witness :
    storeGet (run ([] : Store) [.createE req1]) "999" = none ∧
    exec (run ([] : Store) [.createE req1]) (.getE "999") =
      (run ([] : Store) [.createE req1], .notFound "Order not found", []) :=
  get_never_created [.createE req1] "999" (by decide)

/-- C8: a creation request with an empty items list is not rejected: when
the user check succeeds it is accepted, the pending order is stored, and the
only external call made is the user check. -/
theorem empty_items_create (uc pc : Check) (now : Nat) (s : Store) (userId : String)
    (hu : uc userId = .ok ()) :
    createOrderHandler uc pc now s ⟨userId, some []⟩ =
      (.created ⟨Nat.repr now, userId, [], "pending"⟩,
       storeInsert s (Nat.repr now) ⟨Nat.repr now, userId, [], "pending"⟩,
       [Call.userCall userId]) :=
  createOrderHandler_success uc pc now s userId [] hu (fun it hit => absurd hit (List.not_mem_nil it))

/-- C8 witness: empty items at timestamp 7 yield a stored pending order
after exactly one call. -/
theorem empty_items_create_witness :
    createOrderHandler okCheck okCheck 7 [] ⟨"u1", some []⟩ =
      (.created ⟨Nat.repr 7, "u1", [], "pending"⟩,
       storeInsert [] (Nat.repr 7) ⟨Nat.repr 7, "u1", [], "pending"⟩,
       [Call.userCall "u1"]) :=
  empty_items_create okCheck okCheck 7 [] "u1" rfl

/-- C9 (amended): get and list leave the store unchanged, and a stored
record is never mutated or deleted by later operations, provided no later
creation samples the same millisecond timestamp as the record id (a
same-timestamp creation overwrites it): under that proviso the record
retrieved for its id after any event sequence is identical to the record
originally stored, in particular its status stays pending. -/
theorem store_immutable :
    (∀ (s : Store) (i : String), (exec s (.getE i)).1 = s) ∧
    (∀ s : Store, (exec s .listE).1 = s) ∧
    (∀ (s : Store) (oid : String) (o : Order) (es : List Event),
      storeGet s oid = some o →
      (∀ r : CreateReq, Event.createE r ∈ es → Nat.repr r.now ≠ oid) →
      storeGet (run s es) oid = some o) :=
  ⟨fun _ _ => rfl, fun _ => rfl,
   fun s oid o es h0 h => storeGet_run_some oid o es s h0 h⟩

/-- C9 witness: the order stored by the first creation survives a get, a
list, and a later creation at a different timestamp. -/
theorem store_immutable_witness :
    storeGet
        (run (run [] [.createE req1])
          [.getE "1000", .listE, .createE ⟨okCheck, okCheck, 2000, ⟨"u3", some []⟩⟩])
        "1000" =
      some ⟨"1000", "u1", [], "pending"⟩ :=
  store_immutable.2.2 (run [] [.createE req1]) "1000" ⟨"1000", "u1", [], "pending"⟩
    [.getE "1000", .listE, .createE ⟨okCheck, okCheck, 2000, ⟨"u3", some []⟩⟩]
    rfl
    (by
      intro r hr
      simp only [List.mem_cons, List.not_mem_nil, or_false] at hr
      rcases hr with h1 | h1 | h1 <;> (cases h1 <;> decide))

/-- C9 counterexample: the claim as stated fails, because a later creation
in the same millisecond overwrites the stored record: after a second
creation at timestamp 1000, the record retrieved for id 1000 is no longer
the record originally created for user u1. -/
theorem store_immutable_cex :
    storeGet (run [] [.createE req1]) "1000" = some ⟨"1000", "u1", [], "pending"⟩ ∧
    storeGet (run [] [.createE req1, .createE req2]) "1000" ≠
      some ⟨"1000", "u1", [], "pending"⟩ := by
  exact ⟨rfl, by decide⟩

/-- C10: a creation request whose body has no iterable items field is
handled without storing anything: the store is returned unchanged and the
response is 400 carrying the raised error message (the TypeError of the
failed iteration, or the user-check failure when that check fails first). -/
theorem missing_items_caught (uc pc : Check) (now : Nat) (s : Store) (userId : String) :
    (createOrderHandler uc pc now s ⟨userId, none⟩).2.1 = s ∧
    ((createOrderHandler uc pc now s ⟨userId, none⟩).1 = .badRequest iterErrMsg ∨
      ∃ msg, uc userId = .error msg ∧
        (createOrderHandler uc pc now s ⟨userId, none⟩).1 = .badRequest msg) := by
  cases h : uc userId with
  | error msg =>
    have hstore : (createOrderHandler uc pc now s ⟨userId, none⟩).2.1 = s := by
      simp only [createOrderHandler, h]
    have hresp : (createOrderHandler uc pc now s ⟨userId, none⟩).1 = .badRequest msg := by
      simp only [createOrderHandler, h]
    exact ⟨hstore, .inr ⟨msg, rfl, hresp⟩⟩
  | ok u =>
    have hstore : (createOrderHandler uc pc now s ⟨userId, none⟩).2.1 = s := by
      simp only [createOrderHandler, h]
    have hresp :
        (createOrderHandler uc pc now s ⟨userId, none⟩).1 = .badRequest iterErrMsg := by
      simp only [createOrderHandler, h]
    exact ⟨hstore, .inl hresp⟩

end OrderService
